import Mathlib

/-!
# ledsaga (package sladdfri): a client for the Trådfri gateway

A shallow embedding of the client in `sladdfri.go`, `device.go`, `group.go`,
`mood.go`, `gateway.go` and `lightcontrol.go`, and of the colour conversions
exercised by `convert_test.go`.

Conventions of the embedding.

* The gateway and the canopus CoAP/DTLS library are the environment. A `Net`
  answers every dial and every request as a function of everything the client
  has done so far (the trace, a list of `Event`s), so no assumption is made
  about how the gateway behaves. Every method takes the trace on entry and
  returns the trace on exit.
* `json.Unmarshal` and `canopus.NewJSONPayload` are the environment too: a
  `Codec` holds one decoder per destination type and the encoder.
* A Go method that can crash (nil connection, index out of range) returns a
  `Run`: either `done value trace` or `panic trace`.
* Go's `(value, error)` results are `Except Error value` where the value is
  nil whenever the error is not, and a pair where both can be set.
* `uint8`, `uint32` are `Nat`, `int`, `int32`, `int64` are `Int`: the client
  does no arithmetic on them. `log.Printf` and `time.Sleep` change neither the
  requests nor the results and are left out.
-/

namespace Sladdfri

set_option linter.dupNamespace false

/-! ## Data model -/

/-- A byte string (`[]byte`). -/
abbrev Bytes := List Nat

/-- Go `error` values met by the client. -/
inductive Error where
  /-- an error reported by the canopus connection (dial or send) -/
  | transport (msg : String)
  /-- an error reported by `json.Unmarshal` -/
  | unmarshal (msg : String)
  /-- an error made by `errors.New` in this package -/
  | message (msg : String)
deriving DecidableEq, Repr, Inhabited

/-- The struct `LightControl` (lightcontrol.go). -/
structure LightControl where
  Color : String
  ColorHue : Int
  ColorSat : Int
  ColorX : Int
  ColorY : Int
  Power : Nat
  Dim : Nat
  Mireds : Int
  TransitionDuration : Int
  CumulativeActivePower : Float
  OnTime : Nat
  PowerFactor : Float
  SensorUnit : String
  ID : Nat
deriving Inhabited

/-- The struct `DeviceSet` (lightcontrol.go). -/
structure DeviceSet where
  LightControl : List LightControl
deriving Inhabited

/-- The type `DeviceType` (device.go), a `uint8`. -/
abbrev DeviceType := Nat

def Remote : DeviceType := 0
def Dimmer : DeviceType := 1
def Light : DeviceType := 2
def Sensor : DeviceType := 4

/-- The type `PowerSource` (device.go), a `uint8`. -/
abbrev PowerSource := Nat

/-- The anonymous struct of the field `Device` of the struct `Device`. -/
structure DeviceInfo where
  Manufacturer : String
  ModelNumber : String
  Serial : String
  FirmwareVersion : String
  AvailablePowerSource : PowerSource
  BatteryLevel : Nat
deriving Inhabited

/-- The struct `Device` (device.go); `Type_` is its field `Type`. -/
structure Device where
  Device : DeviceInfo
  LightControl : List LightControl
  Type_ : DeviceType
  Name : String
  CreatedAt : Int
  ID : Nat
  Reachable : Nat
  LastSeen : Int
  OtaUpdateState : Int
deriving Inhabited

/-- The struct `Group` (group.go); `DeviceIDs` is
`AccessoryLink.LinkedItems.DeviceIDs`. -/
structure Group where
  Power : Nat
  Dim : Nat
  Name : String
  CreatedAt : Int
  ID : Nat
  DeviceIDs : List Nat
  MoodID : Nat
deriving Inhabited

/-- The struct `AddGroupRequest` (group.go). -/
structure AddGroupRequest where
  ID : List Nat
  Name : String
deriving Inhabited, DecidableEq

/-- The struct `Mood` (mood.go). -/
structure Mood where
  ID : Nat
  CreatedAt : Int
  Name : String
  IsPredefined : Nat
  Index : Int
  IsActive : Nat
  LightControls : List LightControl
  UseCurrentLightSettings : Nat
deriving Inhabited

/-- The struct `AddMoodRequest` (mood.go). -/
structure AddMoodRequest where
  Name : String
  IsActive : Nat
deriving Inhabited, DecidableEq

/-- The struct `Gateway` (gateway.go). -/
structure Gateway where
  ID : String
  NTPServer : String
  FirmwareVersion : String
  CurrentTimestamp : Int
  CurrentTimestampUTC : String
  CommissioningMode : Nat
  ReleaseNotesURL : String
  Name : String
  TimeSource : Int
  OtaUpdateState : Int
  UpdateProgress : Int
  UpdatePriority : Int
  UpdateAcceptedTimestamp : Int
  ForceOtaUpdateCheck : String
  DstTimeOffset : Int
  DstStartMonth : Int
  DstStartDay : Int
  DstStartHour : Int
  DstStartMinute : Int
  DstEndMonth : Int
  DstEndDay : Int
  DstEndHour : Int
  DstEndMinute : Int
  GoogleHomePairStatus : Int
  AlexaPairStatus : Int
  CertificateProvisioned : Int
deriving Inhabited, DecidableEq

/-- The struct `PSKRequest` (sladdfri.go). -/
structure PSKRequest where
  Ident : String
deriving Inhabited, DecidableEq

/-- The struct `PSKResponse` (sladdfri.go). -/
structure PSKResponse where
  PSK : String
deriving Inhabited, DecidableEq

/-- The values this package hands to `canopus.NewJSONPayload` as the
`payload interface{}` of a request. -/
inductive Payload where
  | pskRequest (p : PSKRequest)
  | gateway (g : Gateway)
  | addGroupRequest (r : AddGroupRequest)
  | group (g : Group)
  | addMoodRequest (r : AddMoodRequest)
  | deviceSet (d : DeviceSet)

/-! ## Resource paths and constants -/

def tradfriPort : Nat := 5684
def preauthIdentity : String := "Client_identity"

def uriGatewayIdent : String := "/15011/9063"
def uriGatewayInfo : String := "/15011/15012"
def uriGatewayReboot : String := "/15011/9030"
def uriGatewayFactoryReset : String := "/15011/9031"
def uriDevices : String := "/15001"
def uriGroups : String := "/15004"
def uriGroupAdd : String := "/15004/add"
def uriGroupRemove : String := "/15004/remove"
def uriMoods : String := "/15005"

/-- The CoAP codes of canopus used by the client (RFC 7252: 0.01 to 0.04 and
2.01), values of the `uint8` type `canopus.CoapCode`. -/
def Get : Nat := 1
def Post : Nat := 2
def Put : Nat := 3
def Delete : Nat := 4
def CoapCodeCreated : Nat := 65

/-! ## The environment: connection, requests, trace -/

/-- A confirmable CoAP request as built by `canopus.NewRequest`, `SetRequestURI`
and `SetPayload`. -/
structure Request where
  method : Nat
  uri : String
  payload : Option Bytes
deriving DecidableEq, Repr, Inhabited

/-- What the client reads of a response: its code and its payload bytes. -/
structure Response where
  code : Nat
  payload : Bytes
deriving DecidableEq, Repr, Inhabited

/-- A connection returned by `canopus.DialDTLS(address, identity, psk)`. -/
structure Connection where
  address : String
  identity : String
  psk : String
deriving DecidableEq, Repr, Inhabited

/-- What the client does on the network. -/
inductive Event where
  | dial (address identity psk : String)
  | send (conn : Connection) (req : Request)
deriving DecidableEq, Repr, Inhabited

/-- The network and the gateway behind it: the outcome of a dial (`none` is
success) and of a request, given everything done before. -/
structure Net where
  dial : List Event → String → String → String → Option Error
  send : List Event → Connection → Request → Except Error Response

/-- The JSON encoder and decoders (`canopus.NewJSONPayload(..).GetBytes()` and
`json.Unmarshal` into each destination type). -/
structure Codec where
  encode : Payload → Bytes
  ids : Bytes → Except Error (List Nat)
  device : Bytes → Except Error Device
  group : Bytes → Except Error Group
  mood : Bytes → Except Error Mood
  gateway : Bytes → Except Error Gateway
  psk : Bytes → Except Error PSKResponse

/-- The struct `Client`; `connection` is `none` while the interface field is
nil. -/
structure Client where
  Gateway : String
  Key : String
  psk : String
  connection : Option Connection
deriving DecidableEq, Repr, Inhabited

/-- The outcome of running a method: it returns `value` having extended the
trace to `trace`, or the goroutine panics. -/
inductive Run (α : Type) where
  | done (value : α) (trace : List Event)
  | panic (trace : List Event)

/-- The event of fetching `uri` on `conn`: a GET without a body. -/
def fetchEvent (conn : Connection) (uri : String) : Event :=
  Event.send conn { method := Get, uri := uri, payload := none }

/-- The gateway answers the fetch of `uri` made after `tr` with a response
whose payload `unmarshal` decodes to `v`. -/
def Fetches {α : Type} (net : Net) (conn : Connection) (tr : List Event) (uri : String)
    (unmarshal : Bytes → Except Error α) (v : α) : Prop :=
  ∃ r, net.send tr conn { method := Get, uri := uri, payload := none } = Except.ok r ∧
    unmarshal r.payload = Except.ok v

/-- The fetches of the entities `ids`, one after the other starting after `tr`,
each at the path `uri id`, are answered with payloads that `unmarshal` decodes
to the entities `vs`, in the same order. -/
def FetchesAll {α : Type} (net : Net) (conn : Connection) (uri : Nat → String)
    (unmarshal : Bytes → Except Error α) : List Event → List Nat → List α → Prop
  | _, [], [] => True
  | tr, id :: ids, v :: vs =>
    Fetches net conn tr (uri id) unmarshal v ∧
      FetchesAll net conn uri unmarshal (tr ++ [fetchEvent conn (uri id)]) ids vs
  | _, _, _ => False

/-- The trace at the end of a run. -/
def Run.trace {α : Type} : Run α → List Event
  | Run.done _ tr => tr
  | Run.panic tr => tr

/-- The requests of a trace sent with the CoAP method `method`, in order. -/
def sentWith (method : Nat) (tr : List Event) : List Request :=
  tr.filterMap fun ev =>
    match ev with
    | Event.send _ req => if req.method = method then some req else none
    | Event.dial _ _ _ => none

/-! ## The client (sladdfri.go, mood.go) -/

/-- The function `NewClient`. -/
def NewClient (gateway key : String) : Client :=
  { Gateway := gateway, Key := key, psk := "", connection := none }

/-- The method `Client.generatePSK`. Returns the error and the client as the
method leaves it. -/
def generatePSK (net : Net) (codec : Codec) (c : Client) (address ident : String)
    (tr : List Event) : (Option Error × Client) × List Event :=
  let tr1 := tr ++ [Event.dial address preauthIdentity c.Key]
  match net.dial tr address preauthIdentity c.Key with
  | some err => ((some err, c), tr1)
  | none =>
    let conn : Connection := { address := address, identity := preauthIdentity, psk := c.Key }
    let req : Request :=
      { method := Post, uri := uriGatewayIdent,
        payload := some (codec.encode (Payload.pskRequest { Ident := ident })) }
    let tr2 := tr1 ++ [Event.send conn req]
    match net.send tr1 conn req with
    | Except.error err => ((some err, c), tr2)
    | Except.ok resp =>
      if resp.code = CoapCodeCreated then
        match codec.psk resp.payload with
        | Except.ok pskResp => ((none, { c with psk := pskResp.PSK }), tr2)
        | Except.error _ => ((none, c), tr2)
      else
        ((some (Error.message "Unable to get PSK"), c), tr2)

/-- The method `Client.Connect`. When the final dial fails the connection
field is whatever `DialDTLS` returned with its error, taken to be nil. -/
def Connect (net : Net) (codec : Codec) (c : Client) (ident : String)
    (tr : List Event) : (Option Error × Client) × List Event :=
  let address := c.Gateway ++ ":" ++ toString tradfriPort
  let afterPSK : (Option Error × Client) × List Event :=
    if c.psk = "" then generatePSK net codec c address ident tr else ((none, c), tr)
  match afterPSK with
  | ((some err, c1), tr1) => ((some err, c1), tr1)
  | ((none, c1), tr1) =>
    let tr2 := tr1 ++ [Event.dial address ident c1.psk]
    match net.dial tr1 address ident c1.psk with
    | some err => ((some err, { c1 with connection := none }), tr2)
    | none =>
      ((none, { c1 with
        connection := some { address := address, identity := ident, psk := c1.psk } }), tr2)

/-- The method `Client.request`. Sending on a nil connection panics. The
payload of the response is returned whatever its code. -/
def request (net : Net) (codec : Codec) (c : Client) (uri : String) (messageMethod : Nat)
    (payload : Option Payload) (tr : List Event) : Run (Except Error Bytes) :=
  let send (req : Request) : Run (Except Error Bytes) :=
    match c.connection with
    | none => Run.panic tr
    | some conn =>
      match net.send tr conn req with
      | Except.error err => Run.done (Except.error err) (tr ++ [Event.send conn req])
      | Except.ok resp => Run.done (Except.ok resp.payload) (tr ++ [Event.send conn req])
  if messageMethod = Put ∨ messageMethod = Post then
    send { method := messageMethod, uri := uri, payload := payload.map codec.encode }
  else if messageMethod = Get ∨ messageMethod = Delete then
    send { method := messageMethod, uri := uri, payload := none }
  else
    Run.done (Except.error
      (Error.message ("Invalid CoAP message type: " ++ toString messageMethod ++ "\n"))) tr

/-- The method `Client.putRequest`. -/
def putRequest (net : Net) (codec : Codec) (c : Client) (uri : String)
    (payload : Option Payload) (tr : List Event) : Run (Option Error) :=
  match request net codec c uri Put payload tr with
  | Run.panic t => Run.panic t
  | Run.done (Except.error err) t => Run.done (some err) t
  | Run.done (Except.ok _) t => Run.done none t

/-- The method `Client.postRequest`. -/
def postRequest (net : Net) (codec : Codec) (c : Client) (uri : String)
    (payload : Option Payload) (tr : List Event) : Run (Option Error) :=
  match request net codec c uri Post payload tr with
  | Run.panic t => Run.panic t
  | Run.done (Except.error err) t => Run.done (some err) t
  | Run.done (Except.ok _) t => Run.done none t

/-- The method `Client.getRequest`, with the decoder for the type of `out`.
Every caller in the package drops `out` when the error is not nil. -/
def getRequest {α : Type} (net : Net) (codec : Codec) (c : Client) (uri : String)
    (unmarshal : Bytes → Except Error α) (tr : List Event) : Run (Except Error α) :=
  match request net codec c uri Get none tr with
  | Run.panic t => Run.panic t
  | Run.done (Except.error err) t => Run.done (Except.error err) t
  | Run.done (Except.ok data) t => Run.done (unmarshal data) t

/-- The method `Client.deleteRequest`. -/
def deleteRequest (net : Net) (codec : Codec) (c : Client) (uri : String)
    (tr : List Event) : Run (Option Error) :=
  match request net codec c uri Delete none tr with
  | Run.panic t => Run.panic t
  | Run.done (Except.error err) t => Run.done (some err) t
  | Run.done (Except.ok _) t => Run.done none t

/-- The path `fmt.Sprintf("%s/%d", uriDevices, id)`. -/
def deviceUri (id : Nat) : String := uriDevices ++ "/" ++ toString id

/-- The path `fmt.Sprintf("%s/%d", uriGroups, id)`. -/
def groupUri (id : Nat) : String := uriGroups ++ "/" ++ toString id

/-- The path `fmt.Sprintf("%s/%d", uriMoods, parent)`. -/
def moodsUri (parent : Nat) : String := uriMoods ++ "/" ++ toString parent

/-- The path `fmt.Sprintf("%s/%d/%d", uriMoods, parent, id)`. -/
def moodUri (parent id : Nat) : String :=
  uriMoods ++ "/" ++ toString parent ++ "/" ++ toString id

/-- The method `Client.moodParent` (mood.go): `&parent[0]` of the decoded
slice, which panics when the slice is empty. The slice is made with length 2,
but `json.Unmarshal` resets a slice to length zero before appending the
elements of the array, so its length is that of the decoded list. -/
def moodParent (net : Net) (codec : Codec) (c : Client) (tr : List Event) :
    Run (Except Error Nat) :=
  match getRequest net codec c uriMoods codec.ids tr with
  | Run.panic t => Run.panic t
  | Run.done (Except.error err) t => Run.done (Except.error err) t
  | Run.done (Except.ok parent) t =>
    match parent with
    | [] => Run.panic t
    | p :: _ => Run.done (Except.ok p) t

/-- The method `Client.GetGroup`. -/
def GetGroup (net : Net) (codec : Codec) (c : Client) (id : Nat) (tr : List Event) :
    Run (Except Error Group) :=
  getRequest net codec c (groupUri id) codec.group tr

/-- The method `Client.GetMood`; `parent` is `none` for a nil pointer. -/
def GetMood (net : Net) (codec : Codec) (c : Client) (id : Nat) (parent : Option Nat)
    (tr : List Event) : Run (Except Error Mood) :=
  match parent with
  | some p => getRequest net codec c (moodUri p id) codec.mood tr
  | none =>
    match moodParent net codec c tr with
    | Run.panic t => Run.panic t
    | Run.done (Except.error err) t => Run.done (Except.error err) t
    | Run.done (Except.ok p) t => getRequest net codec c (moodUri p id) codec.mood t

/-- The method `Client.GetDevice`. -/
def GetDevice (net : Net) (codec : Codec) (c : Client) (id : Nat) (tr : List Event) :
    Run (Except Error Device) :=
  getRequest net codec c (deviceUri id) codec.device tr

/-- The method `Client.ListDeviceIds`. -/
def ListDeviceIds (net : Net) (codec : Codec) (c : Client) (tr : List Event) :
    Run (Except Error (List Nat)) :=
  getRequest net codec c uriDevices codec.ids tr

/-- The method `Client.AddGroup`. -/
def AddGroup (net : Net) (codec : Codec) (c : Client) (ids : List Nat) (name : String)
    (tr : List Event) : Run (Option Error) :=
  match ListDeviceIds net codec c tr with
  | Run.panic t => Run.panic t
  | Run.done (Except.error err) t => Run.done (some err) t
  | Run.done (Except.ok existingIds) t =>
    if ids.all (fun id => existingIds.any (fun existingId => id == existingId)) then
      putRequest net codec c uriGroupAdd
        (some (Payload.addGroupRequest { ID := ids, Name := name })) t
    else
      Run.done (some (Error.message "All identifiers must exist")) t

/-- The method `Client.AddMood`. -/
def AddMood (net : Net) (codec : Codec) (c : Client) (name : String) (tr : List Event) :
    Run (Option Error) :=
  match moodParent net codec c tr with
  | Run.panic t => Run.panic t
  | Run.done (Except.error err) t => Run.done (some err) t
  | Run.done (Except.ok parent) t =>
    postRequest net codec c (moodsUri parent)
      (some (Payload.addMoodRequest { Name := name, IsActive := 1 })) t

/-- The method `Client.RemoveMood`. -/
def RemoveMood (net : Net) (codec : Codec) (c : Client) (id : Nat) (tr : List Event) :
    Run (Option Error) :=
  match moodParent net codec c tr with
  | Run.panic t => Run.panic t
  | Run.done (Except.error err) t => Run.done (some err) t
  | Run.done (Except.ok parent) t => deleteRequest net codec c (moodUri parent id) t

/-- The loop of `Client.ListGroups`: `groups[i] = desc` for each id in turn;
`return nil, err` at the first failure. A `[]*Group` is a list of options, nil
being `none`. -/
def listGroupsLoop (net : Net) (codec : Codec) (c : Client) :
    List Nat → Nat → List (Option Group) → List Event →
      Run (List (Option Group) × Option Error)
  | [], _, groups, tr => Run.done (groups, none) tr
  | group :: rest, i, groups, tr =>
    match GetGroup net codec c group tr with
    | Run.panic t => Run.panic t
    | Run.done (Except.error err) t => Run.done ([], some err) t
    | Run.done (Except.ok desc) t =>
      listGroupsLoop net codec c rest (i + 1) (groups.set i (some desc)) t

/-- The method `Client.ListGroups`. -/
def ListGroups (net : Net) (codec : Codec) (c : Client) (tr : List Event) :
    Run (List (Option Group) × Option Error) :=
  match getRequest net codec c uriGroups codec.ids tr with
  | Run.panic t => Run.panic t
  | Run.done (Except.error err) t => Run.done ([], some err) t
  | Run.done (Except.ok groupIds) t =>
    listGroupsLoop net codec c groupIds 0 (List.replicate groupIds.length none) t

/-- The loop of `Client.ListMoods`. -/
def listMoodsLoop (net : Net) (codec : Codec) (c : Client) (parent : Nat) :
    List Nat → Nat → List (Option Mood) → List Event →
      Run (List (Option Mood) × Option Error)
  | [], _, moods, tr => Run.done (moods, none) tr
  | mood :: rest, i, moods, tr =>
    match GetMood net codec c mood (some parent) tr with
    | Run.panic t => Run.panic t
    | Run.done (Except.error err) t => Run.done ([], some err) t
    | Run.done (Except.ok desc) t =>
      listMoodsLoop net codec c parent rest (i + 1) (moods.set i (some desc)) t

/-- The method `Client.ListMoods`. -/
def ListMoods (net : Net) (codec : Codec) (c : Client) (tr : List Event) :
    Run (List (Option Mood) × Option Error) :=
  match moodParent net codec c tr with
  | Run.panic t => Run.panic t
  | Run.done (Except.error err) t => Run.done ([], some err) t
  | Run.done (Except.ok parent) t =>
    match getRequest net codec c (moodsUri parent) codec.ids t with
    | Run.panic t1 => Run.panic t1
    | Run.done (Except.error err) t1 => Run.done ([], some err) t1
    | Run.done (Except.ok moodIds) t1 =>
      listMoodsLoop net codec c parent moodIds 0 (List.replicate moodIds.length none) t1

/-- The loop of `Client.ListDevices`: `devices = append(devices, desc)`; the
bare `return` at a failure returns the named results `devices` and `err` as
they stand. -/
def listDevicesLoop (net : Net) (codec : Codec) (c : Client) :
    List Nat → List (Option Device) → List Event →
      Run (List (Option Device) × Option Error)
  | [], devices, tr => Run.done (devices, none) tr
  | device :: rest, devices, tr =>
    match GetDevice net codec c device tr with
    | Run.panic t => Run.panic t
    | Run.done (Except.error err) t => Run.done (devices, some err) t
    | Run.done (Except.ok desc) t =>
      listDevicesLoop net codec c rest (devices ++ [some desc]) t

/-- The method `Client.ListDevices`. -/
def ListDevices (net : Net) (codec : Codec) (c : Client) (tr : List Event) :
    Run (List (Option Device) × Option Error) :=
  match ListDeviceIds net codec c tr with
  | Run.panic t => Run.panic t
  | Run.done (Except.error err) t => Run.done ([], some err) t
  | Run.done (Except.ok deviceIds) t => listDevicesLoop net codec c deviceIds [] t

/-! ## Observation (sladdfri.go) -/

/-- The value of a `canopus.ObserveMessage` (`msg.GetValue()`): a
`canopus.MessagePayload` with its bytes, or anything else. -/
inductive ObserveValue where
  | payload (bytes : Bytes)
  | other
deriving DecidableEq, Repr, Inhabited

/-- The state of an output channel: the values sent on it, oldest first, and
whether it has been closed. -/
structure Chan (α : Type) where
  sent : List α
  closed : Bool

/-- The method `Client.observerGateway`, run on the messages the channel `in`
delivers before it is closed; each send on `out` is taken by the consumer. -/
def observerGateway (codec : Codec) : List ObserveValue → Chan Gateway → Chan Gateway
  | [], out => out
  | ObserveValue.other :: rest, out => observerGateway codec rest out
  | ObserveValue.payload bytes :: rest, out =>
    match codec.gateway bytes with
    | Except.ok gi => observerGateway codec rest { out with sent := out.sent ++ [gi] }
    | Except.error _ => observerGateway codec rest out

/-- The method `Client.observerDevices`. -/
def observerDevices (codec : Codec) : List ObserveValue → Chan Device → Chan Device
  | [], out => out
  | ObserveValue.other :: rest, out => observerDevices codec rest out
  | ObserveValue.payload bytes :: rest, out =>
    match codec.device bytes with
    | Except.ok dd => observerDevices codec rest { out with sent := out.sent ++ [dd] }
    | Except.error _ => observerDevices codec rest out

/-- The decoding of a well-formed notification: the value is a payload and
`unmarshal` accepts its bytes; `none` for any other notification. -/
def decodeFrame {α : Type} (unmarshal : Bytes → Except Error α) : ObserveValue → Option α
  | ObserveValue.payload bytes =>
    match unmarshal bytes with
    | Except.ok v => some v
    | Except.error _ => none
  | ObserveValue.other => none

/-- The method `Client.GatewayEvents`: the channel `out` it makes, as the
forwarder leaves it once the raw stream has delivered `frames` and closed. -/
def GatewayEvents (codec : Codec) (frames : List ObserveValue) : Chan Gateway :=
  observerGateway codec frames { sent := [], closed := false }

/-- The method `Client.DeviceEvents`, as `GatewayEvents`. -/
def DeviceEvents (codec : Codec) (frames : List ObserveValue) : Chan Device :=
  observerDevices codec frames { sent := [], closed := false }

/-! ## Colour conversions -/

/-- Modelled from the spec: convert.go is not among the sources (only
convert_test.go is); this is the clamp of a mired value to the range [250,454]
that the spec gives for `kelvinToMired` and `miredToKelvin`. -/
def clampMired (m : Int) : Int :=
  if m < 250 then 250 else if m > 454 then 454 else m

/-- Modelled from the spec: `KelvinToMired` of the missing convert.go, as
`round(1_000_000 / k)`, then clamp to [250,454]. The quotient is the exact
rational one and `round` rounds to the nearest integer. -/
def KelvinToMired (kelvin : Int) : Int :=
  clampMired (round ((1000000 : ℚ) / (kelvin : ℚ)))

/-- Modelled from the spec: `MiredToKelvin` of the missing convert.go, as
`round(1_000_000 / mired)` with the input clamped to [250,454] before
dividing. -/
def MiredToKelvin (mired : Int) : Int :=
  round ((1000000 : ℚ) / ((clampMired mired : Int) : ℚ))

/-- Modelled from the spec: `MsToDuration` of the missing convert.go, as the
scale-by-100 transform of the spec, which is what `TestMsToDuration` observes
at 1000; over the integers, without a bound on the width. -/
def MsToDuration (ms : Int) : Int := ms * 100

/-! ## Test doubles

A scripted gateway and a toy codec, used to run the client on concrete inputs. -/

/-- A gateway that accepts every dial and answers the n-th request of a run
(counting the dials made before it) with the n-th entry of `script`, and with
a timeout once the script is exhausted. -/
def scriptNet (script : List (Option (Except Error Response))) : Net where
  dial := fun _ _ _ _ => none
  send := fun tr _ _ =>
    match script.getD tr.length none with
    | some reply => reply
    | none => Except.error (Error.transport "timeout")

/-- A toy codec: an id list is encoded as its bytes, an entity by its id as the
first byte; the empty payload is malformed for every entity type. -/
def fakeCodec : Codec where
  encode := fun p =>
    match p with
    | Payload.addGroupRequest r => r.ID
    | Payload.pskRequest _ => [1]
    | _ => []
  ids := fun b => Except.ok b
  device := fun b =>
    match b with
    | [] => Except.error (Error.unmarshal "unexpected end of JSON input")
    | n :: _ => Except.ok { (default : Device) with ID := n }
  group := fun b =>
    match b with
    | [] => Except.error (Error.unmarshal "unexpected end of JSON input")
    | n :: _ => Except.ok { (default : Group) with ID := n }
  mood := fun b =>
    match b with
    | [] => Except.error (Error.unmarshal "unexpected end of JSON input")
    | n :: _ => Except.ok { (default : Mood) with ID := n }
  gateway := fun b =>
    match b with
    | [] => Except.error (Error.unmarshal "unexpected end of JSON input")
    | n :: _ => Except.ok { (default : Gateway) with CommissioningMode := n }
  psk := fun b =>
    match b with
    | [] => Except.error (Error.unmarshal "unexpected end of JSON input")
    | 0 :: _ => Except.ok { PSK := "" }
    | _ :: _ => Except.ok { PSK := "secret" }

/-- The connection of `fakeClient`. -/
def fakeConn : Connection := { address := "gw:5684", identity := "me", psk := "secret" }

/-- A connected client. -/
def fakeClient : Client :=
  { Gateway := "gw", Key := "key", psk := "secret", connection := some fakeConn }

/-- A successful response (2.05 Content) with the given payload. -/
def content (payload : Bytes) : Option (Except Error Response) :=
  some (Except.ok { code := 69, payload := payload })

/-! ## Theorems -/

theorem request_get (net : Net) (codec : Codec) (c : Client) (conn : Connection)
    (uri : String) (tr : List Event) (hc : c.connection = some conn) :
    request net codec c uri Get none tr =
      match net.send tr conn { method := Get, uri := uri, payload := none } with
      | Except.error err => Run.done (Except.error err) (tr ++ [fetchEvent conn uri])
      | Except.ok resp => Run.done (Except.ok resp.payload) (tr ++ [fetchEvent conn uri]) := by
  simp [request, hc, Get, Put, Post, Delete, fetchEvent]

theorem getRequest_of_fetches {α : Type} (net : Net) (codec : Codec) (c : Client)
    (conn : Connection) (uri : String) (unmarshal : Bytes → Except Error α) (v : α)
    (tr : List Event) (hc : c.connection = some conn)
    (h : Fetches net conn tr uri unmarshal v) :
    getRequest net codec c uri unmarshal tr =
      Run.done (Except.ok v) (tr ++ [fetchEvent conn uri]) := by
  obtain ⟨r, hs, hd⟩ := h
  simp [getRequest, request_get net codec c conn uri tr hc, hs, hd]

theorem putRequest_connected (net : Net) (codec : Codec) (c : Client) (conn : Connection)
    (uri : String) (payload : Option Payload) (tr : List Event)
    (hc : c.connection = some conn) :
    putRequest net codec c uri payload tr =
      Run.done
        (match net.send tr conn
            { method := Put, uri := uri, payload := payload.map codec.encode } with
          | Except.error err => some err
          | Except.ok _ => none)
        (tr ++ [Event.send conn
          { method := Put, uri := uri, payload := payload.map codec.encode }]) := by
  simp only [putRequest, request, hc, Put, Post, true_or, if_true]
  cases net.send tr conn { method := 3, uri := uri, payload := payload.map codec.encode } <;> rfl

theorem all_any_iff (ids existingIds : List Nat) :
    ids.all (fun id => existingIds.any (fun existingId => id == existingId)) = true ↔
      ∀ id ∈ ids, id ∈ existingIds := by
  simp [List.all_eq_true, List.any_eq_true]

/-- C1: when a requested id is missing from the device-id index the gateway
returned, AddGroup returns the error "All identifiers must exist" and the only
request of the call is the fetch of the index: nothing is written. -/
theorem AddGroup_unknown_id (net : Net) (codec : Codec) (c : Client) (conn : Connection)
    (tr : List Event) (ids existingIds : List Nat) (name : String)
    (hc : c.connection = some conn)
    (hidx : Fetches net conn tr uriDevices codec.ids existingIds)
    (hmiss : ∃ id ∈ ids, id ∉ existingIds) :
    AddGroup net codec c ids name tr =
      Run.done (some (Error.message "All identifiers must exist"))
        (tr ++ [fetchEvent conn uriDevices]) := by
  have hall : ¬ (ids.all (fun id => existingIds.any (fun existingId => id == existingId))
      = true) := by
    rw [all_any_iff]
    obtain ⟨id, hin, hnot⟩ := hmiss
    exact fun h => hnot (h id hin)
  simp only [AddGroup, ListDeviceIds, getRequest_of_fetches net codec c conn _ _ _ tr hc hidx]
  rw [if_neg hall]

theorem AddGroup_unknown_id_witness :
    AddGroup (scriptNet [content [1, 2]]) fakeCodec fakeClient [1, 3] "hall" [] =
      Run.done (some (Error.message "All identifiers must exist"))
        ([] ++ [fetchEvent fakeConn uriDevices]) :=
  AddGroup_unknown_id (scriptNet [content [1, 2]]) fakeCodec fakeClient fakeConn []
    [1, 3] [1, 2] "hall" rfl ⟨_, rfl, rfl⟩ ⟨3, by decide, by decide⟩

/-- C9 (as stated, refuted): with every requested id in the index, the request
AddGroup sends after the index fetch is a replace (PUT) to /15004/add; the
call sends no create (POST) request at all. -/
theorem AddGroup_sends_no_create :
    sentWith Post (Run.trace
      (AddGroup (scriptNet [content [1, 2]]) fakeCodec fakeClient [2, 1] "hall" [])) = [] ∧
    sentWith Put (Run.trace
      (AddGroup (scriptNet [content [1, 2]]) fakeCodec fakeClient [2, 1] "hall" [])) =
        [{ method := Put, uri := "/15004/add", payload := some [2, 1] }] := by
  decide

/-- C9 (amended): with every requested id in the index the gateway returned,
AddGroup sends after the index fetch exactly one request, a replace (PUT)
addressed to /15004/add whose body is the encoding of the given ids and name,
and returns the error of that request, or nil when it has none. -/
theorem AddGroup_known_ids (net : Net) (codec : Codec) (c : Client) (conn : Connection)
    (tr : List Event) (ids existingIds : List Nat) (name : String)
    (hc : c.connection = some conn)
    (hidx : Fetches net conn tr uriDevices codec.ids existingIds)
    (hall : ∀ id ∈ ids, id ∈ existingIds) :
    AddGroup net codec c ids name tr =
      Run.done
        (match net.send (tr ++ [fetchEvent conn uriDevices]) conn
            { method := Put, uri := "/15004/add",
              payload := some (codec.encode
                (Payload.addGroupRequest { ID := ids, Name := name })) } with
          | Except.error err => some err
          | Except.ok _ => none)
        (tr ++ [fetchEvent conn uriDevices,
          Event.send conn
            { method := Put, uri := "/15004/add",
              payload := some (codec.encode
                (Payload.addGroupRequest { ID := ids, Name := name })) }]) := by
  have h := (all_any_iff ids existingIds).mpr hall
  simp only [AddGroup, ListDeviceIds, getRequest_of_fetches net codec c conn _ _ _ tr hc hidx]
  rw [if_pos h, putRequest_connected net codec c conn _ _ _ hc]
  simp [uriGroupAdd]

theorem AddGroup_known_ids_witness :
    AddGroup (scriptNet [content [1, 2]]) fakeCodec fakeClient [2, 1] "hall" [] =
      Run.done (some (Error.transport "timeout"))
        [fetchEvent fakeConn uriDevices,
          Event.send fakeConn { method := Put, uri := "/15004/add", payload := some [2, 1] }] :=
  AddGroup_known_ids (scriptNet [content [1, 2]]) fakeCodec fakeClient fakeConn []
    [2, 1] [1, 2] "hall" rfl ⟨_, rfl, rfl⟩ (by decide)

theorem observerGateway_sent (codec : Codec) (frames : List ObserveValue)
    (out : Chan Gateway) :
    (observerGateway codec frames out).sent =
      out.sent ++ frames.filterMap (decodeFrame codec.gateway) := by
  induction frames generalizing out with
  | nil => simp [observerGateway]
  | cons frame rest ih =>
    cases frame with
    | other => simp [observerGateway, decodeFrame, ih]
    | payload bytes =>
      cases h : codec.gateway bytes <;> simp [observerGateway, decodeFrame, h, ih]

theorem observerDevices_sent (codec : Codec) (frames : List ObserveValue)
    (out : Chan Device) :
    (observerDevices codec frames out).sent =
      out.sent ++ frames.filterMap (decodeFrame codec.device) := by
  induction frames generalizing out with
  | nil => simp [observerDevices]
  | cons frame rest ih =>
    cases frame with
    | other => simp [observerDevices, decodeFrame, ih]
    | payload bytes =>
      cases h : codec.device bytes <;> simp [observerDevices, decodeFrame, h, ih]

theorem observerGateway_closed (codec : Codec) (frames : List ObserveValue)
    (out : Chan Gateway) : (observerGateway codec frames out).closed = out.closed := by
  induction frames generalizing out with
  | nil => simp [observerGateway]
  | cons frame rest ih =>
    cases frame with
    | other => simp [observerGateway, ih]
    | payload bytes =>
      cases h : codec.gateway bytes <;> simp [observerGateway, h, ih]

theorem observerDevices_closed (codec : Codec) (frames : List ObserveValue)
    (out : Chan Device) : (observerDevices codec frames out).closed = out.closed := by
  induction frames generalizing out with
  | nil => simp [observerDevices]
  | cons frame rest ih =>
    cases frame with
    | other => simp [observerDevices, ih]
    | payload bytes =>
      cases h : codec.device bytes <;> simp [observerDevices, h, ih]

/-- C5: for every finite sequence of raw notifications, both forwarders write
to their output exactly the decodings of the well-formed frames, in arrival
order, after what the output already held; a malformed frame adds nothing and
stops nothing: a good frame followed by a bad one forwards exactly one value. -/
theorem observers_forward_well_formed (codec : Codec) (frames : List ObserveValue) :
    (∀ out : Chan Gateway, (observerGateway codec frames out).sent =
      out.sent ++ frames.filterMap (decodeFrame codec.gateway)) ∧
    (∀ out : Chan Device, (observerDevices codec frames out).sent =
      out.sent ++ frames.filterMap (decodeFrame codec.device)) ∧
    (GatewayEvents codec frames).sent = frames.filterMap (decodeFrame codec.gateway) ∧
    (DeviceEvents codec frames).sent = frames.filterMap (decodeFrame codec.device) ∧
    (GatewayEvents fakeCodec [ObserveValue.payload [3], ObserveValue.payload []]).sent =
      [{ (default : Gateway) with CommissioningMode := 3 }] ∧
    (DeviceEvents fakeCodec [ObserveValue.payload [3], ObserveValue.payload [],
      ObserveValue.other, ObserveValue.payload [4]]).sent =
      [{ (default : Device) with ID := 3 }, { (default : Device) with ID := 4 }] := by
  refine ⟨observerGateway_sent codec frames, observerDevices_sent codec frames, ?_, ?_,
    rfl, rfl⟩
  · simp [GatewayEvents, observerGateway_sent]
  · simp [DeviceEvents, observerDevices_sent]

/-- C10 (as stated, refuted): after the raw stream has delivered a frame and
closed, the output channel of GatewayEvents holds the forwarded value and is
not closed. -/
theorem GatewayEvents_left_open :
    (GatewayEvents fakeCodec [ObserveValue.payload [3]]).closed = false ∧
    (DeviceEvents fakeCodec [ObserveValue.payload [3]]).closed = false := by
  decide

/-- C10 (amended): when the raw notification stream closes, each forwarder
(behind GatewayEvents and behind DeviceEvents) returns and leaves its output
channel open: no forwarder ever closes its output, whatever frames it got. -/
theorem observers_never_close (codec : Codec) (frames : List ObserveValue) :
    (GatewayEvents codec frames).closed = false ∧
    (DeviceEvents codec frames).closed = false ∧
    (∀ out : Chan Gateway, (observerGateway codec frames out).closed = out.closed) ∧
    (∀ out : Chan Device, (observerDevices codec frames out).closed = out.closed) := by
  refine ⟨?_, ?_, observerGateway_closed codec frames, observerDevices_closed codec frames⟩
  · simp [GatewayEvents, observerGateway_closed]
  · simp [DeviceEvents, observerDevices_closed]

/-- C4: a client without a cached secret whose credential exchange is answered
2.01 Created with a payload that does not decode (or that decodes to an empty
secret) gets no error from Connect: the client goes on to dial the gateway
with the empty secret and returns the result of that dial. -/
theorem Connect_created_without_secret :
    Connect (scriptNet [none, some (Except.ok { code := CoapCodeCreated, payload := [] })])
        fakeCodec (NewClient "gw" "key") "me" [] =
      ((none, { Gateway := "gw", Key := "key", psk := "",
                connection := some { address := "gw:5684", identity := "me", psk := "" } }),
        [Event.dial "gw:5684" "Client_identity" "key",
          Event.send { address := "gw:5684", identity := "Client_identity", psk := "key" }
            { method := Post, uri := "/15011/9063", payload := some [1] },
          Event.dial "gw:5684" "me" ""]) ∧
    Connect (scriptNet [none, some (Except.ok { code := CoapCodeCreated, payload := [0] })])
        fakeCodec (NewClient "gw" "key") "me" [] =
      ((none, { Gateway := "gw", Key := "key", psk := "",
                connection := some { address := "gw:5684", identity := "me", psk := "" } }),
        [Event.dial "gw:5684" "Client_identity" "key",
          Event.send { address := "gw:5684", identity := "Client_identity", psk := "key" }
            { method := Post, uri := "/15011/9063", payload := some [1] },
          Event.dial "gw:5684" "me" ""]) := by
  decide

/-! ### Listings -/

theorem set_length_append_replicate {α : Type} (acc : List (Option α)) (n : Nat) (v : α) :
    (acc ++ List.replicate (n + 1) none).set acc.length (some v) =
      (acc ++ [some v]) ++ List.replicate n none := by
  induction acc with
  | nil => simp [List.replicate_succ]
  | cons a acc ih => simpa using ih

theorem listDevicesLoop_all (net : Net) (codec : Codec) (c : Client) (conn : Connection)
    (hc : c.connection = some conn) (ids : List Nat) :
    ∀ (ds : List Device) (devices : List (Option Device)) (tr : List Event),
      FetchesAll net conn deviceUri codec.device tr ids ds →
      listDevicesLoop net codec c ids devices tr =
        Run.done (devices ++ ds.map some, none)
          (tr ++ ids.map (fun id => fetchEvent conn (deviceUri id))) := by
  induction ids with
  | nil =>
    intro ds devices tr h
    cases ds with
    | nil => simp [listDevicesLoop]
    | cons d ds => simp [FetchesAll] at h
  | cons id ids ih =>
    intro ds devices tr h
    cases ds with
    | nil => simp [FetchesAll] at h
    | cons d ds =>
      obtain ⟨h1, h2⟩ := h
      simp only [listDevicesLoop, GetDevice,
        getRequest_of_fetches net codec c conn _ _ _ tr hc h1]
      rw [ih ds _ _ h2]
      simp

theorem listGroupsLoop_all (net : Net) (codec : Codec) (c : Client) (conn : Connection)
    (hc : c.connection = some conn) (ids : List Nat) :
    ∀ (ds : List Group) (acc : List (Option Group)) (tr : List Event),
      FetchesAll net conn groupUri codec.group tr ids ds →
      listGroupsLoop net codec c ids acc.length (acc ++ List.replicate ids.length none) tr =
        Run.done (acc ++ ds.map some, none)
          (tr ++ ids.map (fun id => fetchEvent conn (groupUri id))) := by
  induction ids with
  | nil =>
    intro ds acc tr h
    cases ds with
    | nil => simp [listGroupsLoop]
    | cons d ds => simp [FetchesAll] at h
  | cons id ids ih =>
    intro ds acc tr h
    cases ds with
    | nil => simp [FetchesAll] at h
    | cons d ds =>
      obtain ⟨h1, h2⟩ := h
      simp only [listGroupsLoop, GetGroup, List.length_cons,
        getRequest_of_fetches net codec c conn _ _ _ tr hc h1]
      rw [set_length_append_replicate]
      have hlen : acc.length + 1 = (acc ++ [some d]).length := by simp
      rw [hlen, ih ds _ _ h2]
      simp

theorem listMoodsLoop_all (net : Net) (codec : Codec) (c : Client) (conn : Connection)
    (hc : c.connection = some conn) (parent : Nat) (ids : List Nat) :
    ∀ (ds : List Mood) (acc : List (Option Mood)) (tr : List Event),
      FetchesAll net conn (moodUri parent) codec.mood tr ids ds →
      listMoodsLoop net codec c parent ids acc.length
          (acc ++ List.replicate ids.length none) tr =
        Run.done (acc ++ ds.map some, none)
          (tr ++ ids.map (fun id => fetchEvent conn (moodUri parent id))) := by
  induction ids with
  | nil =>
    intro ds acc tr h
    cases ds with
    | nil => simp [listMoodsLoop]
    | cons d ds => simp [FetchesAll] at h
  | cons id ids ih =>
    intro ds acc tr h
    cases ds with
    | nil => simp [FetchesAll] at h
    | cons d ds =>
      obtain ⟨h1, h2⟩ := h
      simp only [listMoodsLoop, GetMood, List.length_cons,
        getRequest_of_fetches net codec c conn _ _ _ tr hc h1]
      rw [set_length_append_replicate]
      have hlen : acc.length + 1 = (acc ++ [some d]).length := by simp
      rw [hlen, ih ds _ _ h2]
      simp

theorem FetchesAll_length {α : Type} (net : Net) (conn : Connection) (uri : Nat → String)
    (unmarshal : Bytes → Except Error α) (ids : List Nat) :
    ∀ (vs : List α) (tr : List Event),
      FetchesAll net conn uri unmarshal tr ids vs → vs.length = ids.length := by
  induction ids with
  | nil =>
    intro vs tr h
    cases vs with
    | nil => rfl
    | cons v vs => simp [FetchesAll] at h
  | cons id ids ih =>
    intro vs tr h
    cases vs with
    | nil => simp [FetchesAll] at h
    | cons v vs => simpa using ih vs _ h.2

/-- C3 (as stated, refuted): on a moods index of N = 0 ids, ListMoods issues
two fetches, the moods root /15005 and then the index /15005/5, not one. -/
theorem ListMoods_fetches_root_first :
    ListMoods (scriptNet [content [5], content []]) fakeCodec fakeClient [] =
      Run.done ([], none)
        [fetchEvent fakeConn "/15005", fetchEvent fakeConn "/15005/5"] ∧
    (sentWith Get (Run.trace
      (ListMoods (scriptNet [content [5], content []]) fakeCodec fakeClient []))).length
      ≠ 1 + 0 :=
  ⟨rfl, by decide⟩

/-- C3 (amended): when every fetch succeeds and decodes, ListDevices and
ListGroups issue exactly one index fetch followed by one fetch per id, in
index order, and return the decoded entities in that order without an error;
ListMoods does the same after one more fetch, of the moods root /15005, whose
first element is the parent under which the index and the moods are fetched. -/
theorem listings_fetch_all (net : Net) (codec : Codec) (c : Client) (conn : Connection)
    (tr : List Event) (ids : List Nat) (hc : c.connection = some conn) :
    (∀ ds : List Device,
      Fetches net conn tr uriDevices codec.ids ids →
      FetchesAll net conn deviceUri codec.device (tr ++ [fetchEvent conn uriDevices]) ids ds →
      ds.length = ids.length ∧
      ListDevices net codec c tr =
        Run.done (ds.map some, none)
          (tr ++ fetchEvent conn uriDevices ::
            ids.map (fun id => fetchEvent conn (deviceUri id)))) ∧
    (∀ ds : List Group,
      Fetches net conn tr uriGroups codec.ids ids →
      FetchesAll net conn groupUri codec.group (tr ++ [fetchEvent conn uriGroups]) ids ds →
      ds.length = ids.length ∧
      ListGroups net codec c tr =
        Run.done (ds.map some, none)
          (tr ++ fetchEvent conn uriGroups ::
            ids.map (fun id => fetchEvent conn (groupUri id)))) ∧
    (∀ (ds : List Mood) (parent : Nat) (others : List Nat),
      Fetches net conn tr uriMoods codec.ids (parent :: others) →
      Fetches net conn (tr ++ [fetchEvent conn uriMoods]) (moodsUri parent) codec.ids ids →
      FetchesAll net conn (moodUri parent) codec.mood
        (tr ++ [fetchEvent conn uriMoods] ++ [fetchEvent conn (moodsUri parent)]) ids ds →
      ds.length = ids.length ∧
      ListMoods net codec c tr =
        Run.done (ds.map some, none)
          (tr ++ fetchEvent conn uriMoods :: fetchEvent conn (moodsUri parent) ::
            ids.map (fun id => fetchEvent conn (moodUri parent id)))) := by
  refine ⟨?_, ?_, ?_⟩
  · intro ds hidx hall
    refine ⟨FetchesAll_length _ _ _ _ _ _ _ hall, ?_⟩
    simp only [ListDevices, ListDeviceIds,
      getRequest_of_fetches net codec c conn _ _ _ tr hc hidx]
    rw [listDevicesLoop_all net codec c conn hc ids ds [] _ hall]
    simp
  · intro ds hidx hall
    refine ⟨FetchesAll_length _ _ _ _ _ _ _ hall, ?_⟩
    simp only [ListGroups, getRequest_of_fetches net codec c conn _ _ _ tr hc hidx]
    have h := listGroupsLoop_all net codec c conn hc ids ds [] _ hall
    simp only [List.length_nil, List.nil_append] at h
    rw [h]
    simp
  · intro ds parent others hroot hidx hall
    refine ⟨FetchesAll_length _ _ _ _ _ _ _ hall, ?_⟩
    simp only [ListMoods, moodParent,
      getRequest_of_fetches net codec c conn _ _ _ tr hc hroot,
      getRequest_of_fetches net codec c conn _ _ _ _ hc hidx]
    have h := listMoodsLoop_all net codec c conn hc parent ids ds [] _ hall
    simp only [List.length_nil, List.nil_append] at h
    rw [h]
    simp

theorem listings_fetch_all_witness :
    ListDevices (scriptNet [content [7, 8], content [7], content [8]]) fakeCodec fakeClient []
      = Run.done
        ([{ (default : Device) with ID := 7 }, { (default : Device) with ID := 8 }].map some,
          none)
        ([] ++ fetchEvent fakeConn uriDevices ::
          [7, 8].map (fun id => fetchEvent fakeConn (deviceUri id))) ∧
    ListGroups (scriptNet [content [7, 8], content [7], content [8]]) fakeCodec fakeClient []
      = Run.done
        ([{ (default : Group) with ID := 7 }, { (default : Group) with ID := 8 }].map some,
          none)
        ([] ++ fetchEvent fakeConn uriGroups ::
          [7, 8].map (fun id => fetchEvent fakeConn (groupUri id))) ∧
    ListMoods (scriptNet [content [5, 6], content [7, 8], content [7], content [8]])
        fakeCodec fakeClient []
      = Run.done
        ([{ (default : Mood) with ID := 7 }, { (default : Mood) with ID := 8 }].map some,
          none)
        ([] ++ fetchEvent fakeConn uriMoods :: fetchEvent fakeConn (moodsUri 5) ::
          [7, 8].map (fun id => fetchEvent fakeConn (moodUri 5 id))) :=
  ⟨((listings_fetch_all (scriptNet [content [7, 8], content [7], content [8]]) fakeCodec
      fakeClient fakeConn [] [7, 8] rfl).1
      [{ (default : Device) with ID := 7 }, { (default : Device) with ID := 8 }]
      ⟨_, rfl, rfl⟩
      (by simp only [FetchesAll]; exact ⟨⟨_, rfl, rfl⟩, ⟨_, rfl, rfl⟩, trivial⟩)).2,
    ((listings_fetch_all (scriptNet [content [7, 8], content [7], content [8]]) fakeCodec
      fakeClient fakeConn [] [7, 8] rfl).2.1
      [{ (default : Group) with ID := 7 }, { (default : Group) with ID := 8 }]
      ⟨_, rfl, rfl⟩
      (by simp only [FetchesAll]; exact ⟨⟨_, rfl, rfl⟩, ⟨_, rfl, rfl⟩, trivial⟩)).2,
    ((listings_fetch_all (scriptNet [content [5, 6], content [7, 8], content [7], content [8]])
      fakeCodec fakeClient fakeConn [] [7, 8] rfl).2.2
      [{ (default : Mood) with ID := 7 }, { (default : Mood) with ID := 8 }] 5 [6]
      ⟨_, rfl, rfl⟩ ⟨_, rfl, rfl⟩
      (by simp only [FetchesAll]; exact ⟨⟨_, rfl, rfl⟩, ⟨_, rfl, rfl⟩, trivial⟩)).2⟩

/-- C2: with an index of two ids whose second fetch fails (k = 2), each
listing stops after two per-entity fetches and returns that error; ListGroups
and ListMoods return no entity with it, but ListDevices returns the device it
had already fetched. -/
theorem ListDevices_keeps_fetched_devices :
    ListDevices (scriptNet [content [7, 8], content [7]]) fakeCodec fakeClient [] =
      Run.done ([some { (default : Device) with ID := 7 }], some (Error.transport "timeout"))
        [fetchEvent fakeConn "/15001", fetchEvent fakeConn "/15001/7",
          fetchEvent fakeConn "/15001/8"] ∧
    ListGroups (scriptNet [content [7, 8], content [7]]) fakeCodec fakeClient [] =
      Run.done ([], some (Error.transport "timeout"))
        [fetchEvent fakeConn "/15004", fetchEvent fakeConn "/15004/7",
          fetchEvent fakeConn "/15004/8"] ∧
    ListMoods (scriptNet [content [5], content [7, 8], content [7]]) fakeCodec fakeClient [] =
      Run.done ([], some (Error.transport "timeout"))
        [fetchEvent fakeConn "/15005", fetchEvent fakeConn "/15005/5",
          fetchEvent fakeConn "/15005/5/7", fetchEvent fakeConn "/15005/5/8"] ∧
    ListDevices (scriptNet [content [7, 8], content [7], content []]) fakeCodec fakeClient [] =
      Run.done ([some { (default : Device) with ID := 7 }],
          some (Error.unmarshal "unexpected end of JSON input"))
        [fetchEvent fakeConn "/15001", fetchEvent fakeConn "/15001/7",
          fetchEvent fakeConn "/15001/8"] :=
  ⟨rfl, rfl, rfl, rfl⟩

/-! ### Colour conversions -/

theorem round_intCast_div (a b : Int) (hb : 0 < b) :
    round ((a : ℚ) / (b : ℚ)) = (2 * a + b) / (2 * b) := by
  obtain ⟨n, rfl⟩ := Int.eq_ofNat_of_zero_le hb.le
  have h : (a : ℚ) / ((n : Int) : ℚ) + 1 / 2 =
      (((2 * a + n : Int)) : ℚ) / (((2 * n : ℕ)) : ℚ) := by
    have hn : (n : ℚ) ≠ 0 := by
      have : (0 : Int) < n := hb
      exact_mod_cast this.ne'
    push_cast
    field_simp
    ring
  rw [round_eq, h, Rat.floor_intCast_div_natCast]
  push_cast
  rfl

theorem clampMired_eq (m : Int) : clampMired m = max 250 (min 454 m) := by
  unfold clampMired
  split_ifs <;> omega

theorem clampMired_pos (m : Int) : 0 < clampMired m := by
  rw [clampMired_eq]; omega

theorem KelvinToMired_int (k : Int) (hk : 0 < k) :
    KelvinToMired k = clampMired ((2000000 + k) / (2 * k)) := by
  unfold KelvinToMired
  have := round_intCast_div 1000000 k hk
  push_cast at this
  rw [this]

theorem MiredToKelvin_int (m : Int) :
    MiredToKelvin m = (2000000 + clampMired m) / (2 * clampMired m) := by
  unfold MiredToKelvin
  have := round_intCast_div 1000000 (clampMired m) (clampMired_pos m)
  push_cast at this
  rw [this]

theorem roundtrip_range (c : Int) (h1 : 250 ≤ c) (h2 : c ≤ 454) :
    0 < (2000000 + c) / (2 * c) ∧
    clampMired ((2000000 + (2000000 + c) / (2 * c)) / (2 * ((2000000 + c) / (2 * c)))) = c := by
  interval_cases c <;> exact ⟨by decide, rfl⟩

theorem roundtrip_clamp (m : Int) :
    KelvinToMired (MiredToKelvin m) = clampMired m := by
  have hc := clampMired_eq m
  obtain ⟨hpos, hrt⟩ := roundtrip_range (clampMired m) (by omega) (by omega)
  rw [MiredToKelvin_int, KelvinToMired_int _ hpos, hrt]

/-- C6: for every integer mired value m, KelvinToMired (MiredToKelvin m) lies
in [250,454] and equals m clamped to [250,454]; on 250 <= m <= 454 the
composition is the identity. -/
theorem KelvinToMired_MiredToKelvin (m : Int) :
    250 ≤ KelvinToMired (MiredToKelvin m) ∧ KelvinToMired (MiredToKelvin m) ≤ 454 ∧
    KelvinToMired (MiredToKelvin m) = max 250 (min 454 m) ∧
    (250 ≤ m → m ≤ 454 → KelvinToMired (MiredToKelvin m) = m) := by
  rw [roundtrip_clamp, clampMired_eq]
  omega

theorem KelvinToMired_MiredToKelvin_witness :
    KelvinToMired (MiredToKelvin 345) = 345 :=
  (KelvinToMired_MiredToKelvin 345).2.2.2 (by decide) (by decide)

/-- C7: for every positive Kelvin value k, KelvinToMired k is round(1000000/k)
clamped to [250,454], so it lies in [250,454]; and the five values of
TestKelvinToMired. -/
theorem KelvinToMired_spec (k : Int) (hk : 0 < k) :
    KelvinToMired k = max 250 (min 454 (round ((1000000 : ℚ) / (k : ℚ)))) ∧
    250 ≤ KelvinToMired k ∧ KelvinToMired k ≤ 454 ∧
    KelvinToMired 2100 = 454 ∧ KelvinToMired 2200 = 454 ∧ KelvinToMired 2900 = 345 ∧
    KelvinToMired 4000 = 250 ∧ KelvinToMired 5000 = 250 := by
  have _ := hk
  refine ⟨?_, ?_, ?_, ?_, ?_, ?_, ?_, ?_⟩
  · unfold KelvinToMired; rw [clampMired_eq]
  · unfold KelvinToMired; rw [clampMired_eq]; omega
  · unfold KelvinToMired; rw [clampMired_eq]; omega
  all_goals (rw [KelvinToMired_int _ (by decide)]; rfl)

theorem KelvinToMired_spec_witness :
    (0 : Int) < 2900 ∧ KelvinToMired 2900 = 345 :=
  ⟨by decide, (KelvinToMired_spec 2900 (by decide)).2.2.2.2.2.1⟩

/-- C8: for every integer mired value m, MiredToKelvin m is
round(1000000 / clamp(m,250,454)); every m <= 250 gives 4000 and every
m >= 454 gives 2203; and the five values of TestMiredToKelvin. -/
theorem MiredToKelvin_spec (m : Int) :
    MiredToKelvin m = round ((1000000 : ℚ) / ((max 250 (min 454 m) : Int) : ℚ)) ∧
    (m ≤ 250 → MiredToKelvin m = 4000) ∧ (454 ≤ m → MiredToKelvin m = 2203) ∧
    MiredToKelvin 500 = 2203 ∧ MiredToKelvin 454 = 2203 ∧ MiredToKelvin 345 = 2899 ∧
    MiredToKelvin 250 = 4000 ∧ MiredToKelvin 220 = 4000 := by
  have sat_lo : ∀ n : Int, n ≤ 250 → MiredToKelvin n = 4000 := by
    intro n hn
    have h : clampMired n = 250 := by rw [clampMired_eq]; omega
    rw [MiredToKelvin_int, h]; rfl
  have sat_hi : ∀ n : Int, 454 ≤ n → MiredToKelvin n = 2203 := by
    intro n hn
    have h : clampMired n = 454 := by rw [clampMired_eq]; omega
    rw [MiredToKelvin_int, h]; rfl
  refine ⟨?_, sat_lo m, sat_hi m, sat_hi 500 (by decide), sat_hi 454 (by decide), ?_,
    sat_lo 250 (by decide), sat_lo 220 (by decide)⟩
  · unfold MiredToKelvin; rw [clampMired_eq]
  · rw [MiredToKelvin_int]; rfl

theorem MiredToKelvin_spec_witness :
    MiredToKelvin (-3) = 4000 ∧ MiredToKelvin 1000 = 2203 :=
  ⟨(MiredToKelvin_spec (-3)).2.1 (by decide), (MiredToKelvin_spec 1000).2.2.1 (by decide)⟩

/-! ### Sessions -/

theorem request_no_connection (net : Net) (codec : Codec) (c : Client) (uri : String)
    (messageMethod : Nat) (payload : Option Payload) (tr : List Event)
    (hc : c.connection = none) :
    Run.trace (request net codec c uri messageMethod payload tr) = tr := by
  unfold request
  simp only [hc]
  split_ifs <;> rfl

theorem request_connected (net : Net) (codec : Codec) (c : Client) (conn : Connection)
    (uri : String) (messageMethod : Nat) (payload : Option Payload) (tr : List Event)
    (hc : c.connection = some conn)
    (hm : messageMethod = Get ∨ messageMethod = Put ∨ messageMethod = Post ∨
      messageMethod = Delete) :
    Run.trace (request net codec c uri messageMethod payload tr) =
      tr ++ [Event.send conn
        { method := messageMethod, uri := uri,
          payload := if messageMethod = Put ∨ messageMethod = Post
            then payload.map codec.encode else none }] := by
  unfold request
  simp only [hc]
  rcases hm with h | h | h | h <;> subst h <;>
    simp only [Get, Put, Post, Delete] <;> norm_num <;>
    split <;> rfl

theorem getRequest_trace {α : Type} (net : Net) (codec : Codec) (c : Client) (uri : String)
    (unmarshal : Bytes → Except Error α) (tr : List Event) :
    Run.trace (getRequest net codec c uri unmarshal tr) =
      Run.trace (request net codec c uri Get none tr) := by
  unfold getRequest
  split <;> simp_all [Run.trace]

theorem putRequest_trace (net : Net) (codec : Codec) (c : Client) (uri : String)
    (payload : Option Payload) (tr : List Event) :
    Run.trace (putRequest net codec c uri payload tr) =
      Run.trace (request net codec c uri Put payload tr) := by
  unfold putRequest
  split <;> simp_all [Run.trace]

theorem postRequest_trace (net : Net) (codec : Codec) (c : Client) (uri : String)
    (payload : Option Payload) (tr : List Event) :
    Run.trace (postRequest net codec c uri payload tr) =
      Run.trace (request net codec c uri Post payload tr) := by
  unfold postRequest
  split <;> simp_all [Run.trace]

theorem deleteRequest_trace (net : Net) (codec : Codec) (c : Client) (uri : String)
    (tr : List Event) :
    Run.trace (deleteRequest net codec c uri tr) =
      Run.trace (request net codec c uri Delete none tr) := by
  unfold deleteRequest
  split <;> simp_all [Run.trace]

/-- C11 (as stated, refuted): on a client fresh from NewClient, each of the
four operations (fetch, replace, create, delete) opens no channel and sends
nothing: the call on the nil connection panics with the trace still empty. -/
theorem operations_panic_without_session :
    getRequest (scriptNet []) fakeCodec (NewClient "gw" "key") "/15011/15012"
      fakeCodec.gateway [] = Run.panic [] ∧
    putRequest (scriptNet []) fakeCodec (NewClient "gw" "key") "/15004/add"
      (some (Payload.addGroupRequest { ID := [1], Name := "hall" })) [] = Run.panic [] ∧
    postRequest (scriptNet []) fakeCodec (NewClient "gw" "key") "/15011/9030" none []
      = Run.panic [] ∧
    deleteRequest (scriptNet []) fakeCodec (NewClient "gw" "key") "/15001/7" []
      = Run.panic [] :=
  ⟨rfl, rfl, rfl, rfl⟩

/-- C11 (amended): no request/response operation (fetch, replace, create,
delete) establishes a session. On a client that has no established session
the operation opens no channel and sends no request; on a client with an
established session it sends exactly its one request on that session. -/
theorem operations_use_stored_session {α : Type} (net : Net) (codec : Codec) (c : Client)
    (uri : String) (payload : Option Payload) (unmarshal : Bytes → Except Error α)
    (tr : List Event) :
    (c.connection = none →
      Run.trace (getRequest net codec c uri unmarshal tr) = tr ∧
      Run.trace (putRequest net codec c uri payload tr) = tr ∧
      Run.trace (postRequest net codec c uri payload tr) = tr ∧
      Run.trace (deleteRequest net codec c uri tr) = tr) ∧
    (∀ conn : Connection, c.connection = some conn →
      Run.trace (getRequest net codec c uri unmarshal tr) =
        tr ++ [Event.send conn { method := Get, uri := uri, payload := none }] ∧
      Run.trace (putRequest net codec c uri payload tr) =
        tr ++ [Event.send conn
          { method := Put, uri := uri, payload := payload.map codec.encode }] ∧
      Run.trace (postRequest net codec c uri payload tr) =
        tr ++ [Event.send conn
          { method := Post, uri := uri, payload := payload.map codec.encode }] ∧
      Run.trace (deleteRequest net codec c uri tr) =
        tr ++ [Event.send conn { method := Delete, uri := uri, payload := none }]) := by
  constructor
  · intro hc
    rw [getRequest_trace, putRequest_trace, postRequest_trace, deleteRequest_trace]
    exact ⟨request_no_connection _ _ _ _ _ _ _ hc, request_no_connection _ _ _ _ _ _ _ hc,
      request_no_connection _ _ _ _ _ _ _ hc, request_no_connection _ _ _ _ _ _ _ hc⟩
  · intro conn hc
    rw [getRequest_trace, putRequest_trace, postRequest_trace, deleteRequest_trace,
      request_connected net codec c conn uri Get none tr hc (Or.inl rfl),
      request_connected net codec c conn uri Put payload tr hc (Or.inr (Or.inl rfl)),
      request_connected net codec c conn uri Post payload tr hc (Or.inr (Or.inr (Or.inl rfl))),
      request_connected net codec c conn uri Delete none tr hc (Or.inr (Or.inr (Or.inr rfl)))]
    simp [Get, Put, Post, Delete]

theorem operations_use_stored_session_witness :
    Run.trace (deleteRequest (scriptNet []) fakeCodec (NewClient "gw" "key") "/15001/7" [])
      = [] ∧
    Run.trace (postRequest (scriptNet []) fakeCodec fakeClient "/15011/9030" none []) =
      [] ++ [Event.send fakeConn
        { method := Post, uri := "/15011/9030",
          payload := (none : Option Payload).map fakeCodec.encode }] :=
  ⟨((operations_use_stored_session (scriptNet []) fakeCodec (NewClient "gw" "key")
      "/15001/7" none fakeCodec.gateway []).1 rfl).2.2.2,
    ((operations_use_stored_session (scriptNet []) fakeCodec fakeClient
      "/15011/9030" none fakeCodec.gateway []).2 fakeConn rfl).2.2.1⟩

/-- C12: on a client whose secret is cached (not empty), Connect makes no
credential exchange: its only action is one dial with the given identity and
the cached secret, whose result it returns; the cached secret is unchanged
and on success the connection is the one dialled. -/
theorem Connect_cached_secret (net : Net) (codec : Codec) (c : Client) (ident : String)
    (tr : List Event) (hpsk : c.psk ≠ "") :
    (Connect net codec c ident tr).2 =
      tr ++ [Event.dial (c.Gateway ++ ":" ++ toString tradfriPort) ident c.psk] ∧
    (Connect net codec c ident tr).1.1 =
      net.dial tr (c.Gateway ++ ":" ++ toString tradfriPort) ident c.psk ∧
    (Connect net codec c ident tr).1.2.psk = c.psk ∧
    (net.dial tr (c.Gateway ++ ":" ++ toString tradfriPort) ident c.psk = none →
      (Connect net codec c ident tr).1.2.connection =
        some { address := c.Gateway ++ ":" ++ toString tradfriPort,
               identity := ident, psk := c.psk }) := by
  unfold Connect
  simp only [if_neg hpsk]
  cases h : net.dial tr (c.Gateway ++ ":" ++ toString tradfriPort) ident c.psk <;> simp

theorem Connect_cached_secret_witness :
    (Connect (scriptNet []) fakeCodec fakeClient "me" []).2 =
      [] ++ [Event.dial ("gw" ++ ":" ++ toString tradfriPort) "me" "secret"] ∧
    (Connect (scriptNet []) fakeCodec fakeClient "me" []).1.2.psk = "secret" :=
  ⟨(Connect_cached_secret (scriptNet []) fakeCodec fakeClient "me" [] (by decide)).1,
    (Connect_cached_secret (scriptNet []) fakeCodec fakeClient "me" [] (by decide)).2.2.1⟩

/-- C13: for every integer millisecond value ms, MsToDuration ms is ms * 100;
in particular MsToDuration 1000 = 100000, the value of TestMsToDuration. -/
theorem MsToDuration_spec (ms : Int) :
    MsToDuration ms = ms * 100 ∧ MsToDuration 1000 = 100000 :=
  ⟨rfl, by decide⟩

/-- C14: when the fetch of the moods root /15005 succeeds and decodes to the
empty id list, moodParent returns neither an error nor an id: indexing the
empty slice panics, and so do AddMood, RemoveMood, ListMoods and GetMood
without a parent, each after that one fetch. -/
theorem moodParent_panics_on_empty_root :
    moodParent (scriptNet [content []]) fakeCodec fakeClient [] =
      Run.panic [fetchEvent fakeConn "/15005"] ∧
    AddMood (scriptNet [content []]) fakeCodec fakeClient "evening" [] =
      Run.panic [fetchEvent fakeConn "/15005"] ∧
    RemoveMood (scriptNet [content []]) fakeCodec fakeClient 7 [] =
      Run.panic [fetchEvent fakeConn "/15005"] ∧
    ListMoods (scriptNet [content []]) fakeCodec fakeClient [] =
      Run.panic [fetchEvent fakeConn "/15005"] ∧
    GetMood (scriptNet [content []]) fakeCodec fakeClient 7 none [] =
      Run.panic [fetchEvent fakeConn "/15005"] :=
  ⟨rfl, rfl, rfl, rfl, rfl⟩

end Sladdfri
